import Mathlib

/- Formal model of the Streaming Orchestration Controller implemented in
   src/microservices/python-server/main.py.  Python strings are modelled as
   lists of characters, and the Python string primitives used by the handlers
   (strip, split, readlines) are translated explicitly.  External HTTP calls
   are modelled by an environment recording the outcome of each request a
   handler makes, and the filesystem by a record of the two artifacts the
   handlers touch. -/

abbrev PyStr := List Char

deriving instance DecidableEq for Except

def chars (s : String) : PyStr := s.data

/-- Python's default whitespace set for str.strip (ASCII range). -/
def isPySpace (c : Char) : Bool :=
  c = ' ' || c = '\t' || c = '\n' || c = '\r' || c = Char.ofNat 11 || c = Char.ofNat 12

/-- Leading-whitespace removal, the left half of Python str.strip. -/
def stripLeft (s : PyStr) : PyStr := s.dropWhile isPySpace

/-- Trailing-whitespace removal, the right half of Python str.strip. -/
def stripRight (s : PyStr) : PyStr := (s.reverse.dropWhile isPySpace).reverse

/-- Python str.strip(): removes leading and trailing whitespace. -/
def pyStrip (s : PyStr) : PyStr := stripRight (stripLeft s)

/-- Python str.split(sep) for a one-character separator: keeps empty pieces,
    and the empty string splits to one empty piece. -/
def pySplit (c : Char) : PyStr → List PyStr
  | [] => [[]]
  | x :: xs =>
    match pySplit c xs with
    | [] => [[]]
    | h :: t => if x = c then [] :: h :: t else (x :: h) :: t

/-- Python file.readlines(): pieces end with the newline character, a final
    piece without a trailing newline is kept, and an empty file gives no
    lines. -/
def pyReadlines : PyStr → List PyStr
  | [] => []
  | x :: xs =>
    if x = '\n' then ['\n'] :: pyReadlines xs
    else
      match pyReadlines xs with
      | [] => [[x]]
      | h :: t => (x :: h) :: t

/-- Joins pieces with a one-character separator (inverse of pySplit on
    separator-free pieces). -/
def joinSep (c : Char) : List PyStr → PyStr
  | [] => []
  | [l] => l
  | l :: ls => l ++ c :: joinSep c ls

/-- Line-delimited encoding: lines joined by newlines. -/
def joinLines : List PyStr → PyStr := joinSep '\n'

/-- The per-line step of the stream record parser (main.py lines 125-130 and
    164-170): strip the line, skip it when blank, otherwise attempt to decode
    it, skipping it silently when decoding fails.  The decode function `dec`
    stands for json.loads, which is an external library call; a `none` result
    models a raised JSONDecodeError. -/
def lineDecode (dec : PyStr → Option α) (line : PyStr) : Option α :=
  let l := pyStrip line
  if l = [] then none else dec l

/-- The stream record parser (main.py lines 120-130): strip the payload,
    return no records when it is empty, otherwise split it into lines and
    decode each line, silently skipping blank and malformed lines. -/
def parseStream (dec : PyStr → Option α) (payload : PyStr) : List α :=
  let t := pyStrip payload
  if t = [] then []
  else (pySplit '\n' t).filterMap (lineDecode dec)

/- A concrete record type and decoder for evaluating the model on the spec's
   scenarios.  Records are flat JSON objects with string keys and
   natural-number values, e.g. the scenario payloads with bid and ask
   fields.  decFlatObj models the behaviour of json.loads (an external
   library, not repository code) restricted to this shape. -/

abbrev FlatRec := List (PyStr × Nat)

def lbrace : Char := Char.ofNat 123

def rbrace : Char := Char.ofNat 125

def dquote : Char := Char.ofNat 34

def digitVal (c : Char) : Option Nat :=
  if '0' ≤ c && c ≤ '9' then some (c.toNat - 48) else none

def decDigitsGo (acc : Nat) : PyStr → Option Nat
  | [] => some acc
  | c :: r =>
    match digitVal c with
    | some d => decDigitsGo (10 * acc + d) r
    | none => none

def decDigits : PyStr → Option Nat
  | [] => none
  | s => decDigitsGo 0 s

def unquote (s : PyStr) : Option PyStr :=
  match s with
  | c :: rest =>
    if c = dquote then
      match rest.reverse with
      | c2 :: midRev => if c2 = dquote then some midRev.reverse else none
      | [] => none
    else none
  | [] => none

def decPair (s : PyStr) : Option (PyStr × Nat) :=
  match pySplit ':' s with
  | [k, v] =>
    match unquote k, decDigits v with
    | some key, some n => some (key, n)
    | _, _ => none
  | _ => none

/-- Restricted model of json.loads: a flat object of string keys and
    natural-number values with no internal whitespace. -/
def decFlatObj (s : PyStr) : Option FlatRec :=
  match s with
  | c :: rest =>
    if c = lbrace then
      match rest.reverse with
      | c2 :: midRev =>
        if c2 = rbrace then
          let mid := midRev.reverse
          if mid = [] then some [] else (pySplit ',' mid).mapM decPair
        else none
      | [] => none
    else none
  | [] => none

def encPair (p : PyStr × Nat) : PyStr :=
  dquote :: p.1 ++ dquote :: ':' :: Nat.toDigits 10 p.2

/-- Serialisation of a flat record back to one JSON line (left inverse of
    decFlatObj on records with well-formed keys). -/
def encFlatObj (r : FlatRec) : PyStr :=
  lbrace :: joinSep ',' (r.map encPair) ++ [rbrace]

/- Model of the web handlers.  The filesystem records the two artifacts the
   handlers touch: whether the input file data/CLX5_mbo.dbn exists, and the
   content of the output file data/order_book_output.json when it exists. -/

structure Fs where
  dataFile : Bool
  outputFile : Option PyStr
deriving DecidableEq

/-- Outcome of one requests call as seen by the handler: status code, body
    text, and the result of .json() on the body (none models a body that is
    not valid JSON, so that calling .json() raises). -/
structure Resp (β : Type) where
  code : Nat
  text : PyStr
  json : Option β
deriving DecidableEq

/-- Environment for one start_streaming invocation: the outcome of each of
    the four outbound requests the handler can make.  An `Except.error`
    carries the text of the raised requests.RequestException. -/
structure Env (β : Type) where
  senderResp : Except PyStr (Resp β)
  receiverResp : Except PyStr (Resp β)
  statsResp : Except PyStr (Resp β)
  orderBookResp : Except PyStr (Resp β)

/-- Externally observable effects of start_streaming, in order. -/
inductive Eff
  | deleteOutput
  | callSender
  | callReceiver
  | callStats
  | callOrderBook
deriving DecidableEq

/-- Python exceptions that can escape the body of the outer try block of
    start_streaming: fastapi.HTTPException (raised explicitly by the
    handler) and requests.RequestException (raised by the requests library;
    this includes requests JSONDecodeError from .json()). -/
inductive PyExc
  | httpExc (code : Nat) (detail : PyStr)
  | reqExc (msg : PyStr)
deriving DecidableEq

/-- The HTTPException finally surfaced to the client: HTTP status code and
    detail message. -/
structure HErr where
  code : Nat
  detail : PyStr
deriving DecidableEq

/-- The JSON body returned by start_streaming on success
    (main.py lines 135-143). -/
structure StartOk (α β : Type) where
  status : PyStr
  message : PyStr
  total_records : Nat
  final_order_book : α
  sender_stats : β
  receiver_stats : β
  data : List α
deriving DecidableEq

/-- Python `order_book_data[-1] if order_book_data else {}`
    (main.py line 133). -/
def finalStateOf (emptyR : α) (records : List α) : α :=
  match records with
  | [] => emptyR
  | _ => records.getD (records.length - 1) emptyR

/-- Stands for the message of the requests JSONDecodeError raised when
    .json() is called on a non-JSON body (external library text). -/
def jsonErrText : PyStr := chars "Expecting value"

/-- Modelled from the spec: the persisted output artifact.  The durable
    write of the record sequence is not performed by any code under src/
    (the consumer service writes data/order_book_output.json through shared
    storage; main.py only deletes and reads it).  Following the spec's
    words, the full record sequence is persisted "in the same line-delimited
    encoding it received". -/
def persistRecords (enc : α → PyStr) (records : List α) : PyStr :=
  joinLines (records.map enc)

/-- The old-output cleanup effect (main.py lines 46-48): the deletion
    happens exactly when a previous output artifact exists, before any
    external service is contacted. -/
def cleanupTrace (fs : Fs) : List Eff :=
  if fs.outputFile.isSome then [Eff.deleteOutput] else []

/-- The best-effort statistics refetch (main.py lines 93-103): on a 200
    response with a JSON body the statistics replace the consumer activation
    response; on any other outcome — raised request error, non-success
    status, or a 200 body whose .json() raises inside the same try — the
    previously known value is kept. -/
def statsFallback (st : Except PyStr (Resp β)) (receiverData0 : β) : β :=
  match st with
  | .error _ => receiverData0
  | .ok stat =>
    if stat.code = 200 then
      match stat.json with
      | some j => j
      | none => receiverData0
    else receiverData0

/-- The body of start_streaming's outer try block (main.py lines 40-146),
    returning the filesystem after the run, the ordered effect trace, and
    either the raised exception or the success body.  `dec` stands for
    json.loads on output lines, `emptyR` for the literal `{}` used when no
    records were parsed, and `enc` for the line encoding of one record used
    by the spec-modelled persistence step. -/
def startCore (dec : PyStr → Option α) (emptyR : α) (enc : α → PyStr)
    (fs : Fs) (env : Env β) : Fs × List Eff × Except PyExc (StartOk α β) :=
  if fs.dataFile = false then
    (fs, [], .error (.httpExc 404 (chars "Data file not found")))
  else
    let tr0 : List Eff := cleanupTrace fs
    let fs1 : Fs := { fs with outputFile := none }
    let tr1 := tr0 ++ [.callSender]
    match env.senderResp with
    | .error e => (fs1, tr1, .error (.reqExc e))
    | .ok sr =>
      if sr.code ≠ 200 then
        (fs1, tr1, .error (.httpExc 500 (chars "Sender microservice failed: " ++ sr.text)))
      else
        match sr.json with
        | none => (fs1, tr1, .error (.reqExc jsonErrText))
        | some senderData =>
          let tr2 := tr1 ++ [.callReceiver]
          match env.receiverResp with
          | .error e =>
            (fs1, tr2, .error (.httpExc 500 (chars "Receiver microservice failed: " ++ e)))
          | .ok rr =>
            if rr.code ≠ 200 then
              (fs1, tr2, .error (.httpExc 500 (chars "Receiver microservice failed: " ++ rr.text)))
            else
              match rr.json with
              | none => (fs1, tr2, .error (.reqExc jsonErrText))
              | some receiverData0 =>
                let tr3 := tr2 ++ [.callStats]
                let receiverData := statsFallback env.statsResp receiverData0
                let tr4 := tr3 ++ [.callOrderBook]
                match env.orderBookResp with
                | .error e =>
                  (fs1, tr4, .error (.httpExc 500 (chars "Failed to get order book: " ++ e)))
                | .ok ob =>
                  if ob.code ≠ 200 then
                    (fs1, tr4, .error (.httpExc 500 (chars "Failed to get order book: " ++ ob.text)))
                  else
                    let records := parseStream dec ob.text
                    let fs2 : Fs := { fs1 with outputFile := some (persistRecords enc records) }
                    (fs2, tr4, .ok
                      { status := chars "success"
                        message := chars "Microservices completed successfully"
                        total_records := records.length
                        final_order_book := finalStateOf emptyR records
                        sender_stats := senderData
                        receiver_stats := receiverData
                        data := records })

/-- The outer except clauses of start_streaming (main.py lines 148-151).
    fastapi.HTTPException is a subclass of Exception, so every
    HTTPException raised inside the try block is caught by the blanket
    `except Exception` clause and re-raised as HTTP 500 with detail
    "Error: " ++ str(e), where str of an HTTPException is
    "{status_code}: {detail}".  A requests.RequestException instead hits the
    first clause. -/
def wrapExc : PyExc → HErr
  | .reqExc m => ⟨500, chars "Microservice communication failed: " ++ m⟩
  | .httpExc c d => ⟨500, chars "Error: " ++ Nat.toDigits 10 c ++ chars ": " ++ d⟩

/-- POST /api/start-streaming (main.py lines 36-151). -/
def startStreaming (dec : PyStr → Option α) (emptyR : α) (enc : α → PyStr)
    (fs : Fs) (env : Env β) : Fs × List Eff × Except HErr (StartOk α β) :=
  match startCore dec emptyR enc fs env with
  | (fs1, tr, .ok r) => (fs1, tr, .ok r)
  | (fs1, tr, .error e) => (fs1, tr, .error (wrapExc e))

/-- The JSON body returned by get_order_book on success
    (main.py lines 172-176). -/
structure ReadOk (α : Type) where
  status : PyStr
  total_records : Nat
  data : List α
deriving DecidableEq

/-- GET /api/order-book (main.py lines 153-178): 404 when the output
    artifact does not exist, otherwise re-parse it line by line with the
    same lenient per-line decoding.  The 404 is raised before the handler's
    try block, so it is surfaced unchanged.  (The only failure the inner
    try can see is an OS-level read error, which is outside this model.) -/
def readOrderBook (dec : PyStr → Option α) (fs : Fs) : Except HErr (ReadOk α) :=
  match fs.outputFile with
  | none => .error ⟨404, chars "No order book data available"⟩
  | some content =>
    let records := (pyReadlines content).filterMap (lineDecode dec)
    .ok ⟨chars "success", records.length, records⟩

/-- Environment for one get_microservices_status invocation: the outcome of
    the two liveness probes (status code and body on a response, exception
    text on a raised requests error). -/
structure ProbeEnv where
  senderProbe : Except PyStr (Nat × PyStr)
  receiverProbe : Except PyStr (Nat × PyStr)
deriving DecidableEq

/-- The body returned by get_microservices_status (main.py lines 183-226);
    the constant description fields are omitted. -/
structure StatusReport where
  pythonStatus : PyStr
  senderStatus : PyStr
  receiverStatus : PyStr
  dataFileExists : Bool
  outputFileExists : Bool
deriving DecidableEq

/-- GET /api/microservices/status (main.py lines 180-226): each service's
    status starts as "unknown"; a probe answered with status 200 sets it to
    "ready", a probe that raises sets it to "not_running", and any other
    outcome leaves it "unknown".  The handler itself never raises, so the
    endpoint always answers HTTP 200 with this report. -/
def getMicroservicesStatus (fs : Fs) (env : ProbeEnv) : StatusReport :=
  let sender0 := chars "unknown"
  let receiver0 := chars "unknown"
  let senderS :=
    match env.senderProbe with
    | .ok (code, _) => if code = 200 then chars "ready" else sender0
    | .error _ => chars "not_running"
  let receiverS :=
    match env.receiverProbe with
    | .ok (code, _) => if code = 200 then chars "ready" else receiver0
    | .error _ => chars "not_running"
  { pythonStatus := chars "ready"
    senderStatus := senderS
    receiverStatus := receiverS
    dataFileExists := fs.dataFile
    outputFileExists := fs.outputFile.isSome }

/- Concrete inputs used by the scenario claims and witnesses. -/

/-- A filesystem with the input artifact present and no prior output. -/
def fsInput : Fs := ⟨true, none⟩

/-- A filesystem with the input artifact absent and a stale output artifact
    from an earlier successful run. -/
def fsNoData : Fs := ⟨false, some (chars "\x7b\"old\":1\x7d")⟩

/-- The consumer output payload of the spec's aggregation scenario. -/
def scenarioBody : PyStr :=
  chars "\x7b\"bid\":100,\"ask\":101\x7d\n\x7b\"bid\":100,\"ask\":102\x7d"

/-- An environment in which every service call succeeds and the consumer
    reports the scenario payload. -/
def scenarioEnv : Env PyStr :=
  { senderResp := .ok ⟨200, chars "ok", some (chars "sender-activation")⟩
    receiverResp := .ok ⟨200, chars "ok", some (chars "receiver-activation")⟩
    statsResp := .ok ⟨200, chars "ok", some (chars "receiver-stats")⟩
    orderBookResp := .ok ⟨200, scenarioBody, none⟩ }

/-- An environment in which the producer activation call answers HTTP 503. -/
def env503 : Env PyStr :=
  { senderResp := .ok ⟨503, chars "Service Unavailable", none⟩
    receiverResp := .ok ⟨200, chars "ok", some (chars "receiver-activation")⟩
    statsResp := .ok ⟨200, chars "ok", some (chars "receiver-stats")⟩
    orderBookResp := .ok ⟨200, scenarioBody, none⟩ }

/-- A probe environment with one non-success response and one raised
    connection error. -/
def probeEnvMixed : ProbeEnv := ⟨.ok (503, chars "busy"), .error (chars "connection refused")⟩

/-- A probe environment in which both dependent services are unreachable. -/
def probeEnvDown : ProbeEnv :=
  ⟨.error (chars "connection refused"), .error (chars "connection refused")⟩

/-- A filesystem with the input artifact present and a stale output artifact
    left by an earlier successful run. -/
def fsStale : Fs := ⟨true, some (chars "\x7b\"old\":1\x7d")⟩

/-- An environment in which the run succeeds but the best-effort statistics
    request raises (e.g. a timeout). -/
def envStatsDown : Env PyStr :=
  { senderResp := .ok ⟨200, chars "ok", some (chars "sender-activation")⟩
    receiverResp := .ok ⟨200, chars "ok", some (chars "receiver-activation")⟩
    statsResp := .error (chars "timeout")
    orderBookResp := .ok ⟨200, scenarioBody, none⟩ }

/- Lemmas about the string primitives and the parser. -/

theorem pyStrip_nil : pyStrip [] = [] := rfl

theorem lineDecode_nil (dec : PyStr → Option α) : lineDecode dec [] = none := rfl

theorem stripLeft_cons_space (h : isPySpace c = true) (l : PyStr) :
    stripLeft (c :: l) = stripLeft l := by
  simp [stripLeft, List.dropWhile_cons, h]

theorem pyStrip_cons_space (h : isPySpace c = true) (l : PyStr) :
    pyStrip (c :: l) = pyStrip l := by
  unfold pyStrip
  rw [stripLeft_cons_space h]

theorem stripRight_append_space (h : isPySpace a = true) (l : PyStr) :
    stripRight (l ++ [a]) = stripRight l := by
  simp [stripRight, List.dropWhile_cons, h]

theorem stripRight_append_nospace (h : isPySpace a = false) (l : PyStr) :
    stripRight (l ++ [a]) = l ++ [a] := by
  simp [stripRight, List.dropWhile_cons, h]

theorem pyStrip_append_space (h : isPySpace a = true) :
    ∀ l : PyStr, pyStrip (l ++ [a]) = pyStrip l := by
  intro l
  induction l with
  | nil => simp [pyStrip, stripLeft, stripRight, List.dropWhile_cons, h]
  | cons x xs ih =>
    by_cases hx : isPySpace x = true
    · rw [show (x :: xs) ++ [a] = x :: (xs ++ [a]) from rfl,
        pyStrip_cons_space hx, pyStrip_cons_space hx, ih]
    · have hx' : isPySpace x = false := by
        cases hxx : isPySpace x
        · rfl
        · exact absurd hxx hx
      unfold pyStrip
      rw [show (x :: xs) ++ [a] = x :: (xs ++ [a]) from rfl]
      rw [show stripLeft (x :: (xs ++ [a])) = x :: (xs ++ [a]) by
        simp [stripLeft, List.dropWhile_cons, hx']]
      rw [show stripLeft (x :: xs) = x :: xs by
        simp [stripLeft, List.dropWhile_cons, hx']]
      rw [show x :: (xs ++ [a]) = (x :: xs) ++ [a] from rfl]
      rw [stripRight_append_space h]

theorem lineDecode_cons_space (dec : PyStr → Option α) (h : isPySpace c = true) (l : PyStr) :
    lineDecode dec (c :: l) = lineDecode dec l := by
  unfold lineDecode
  rw [pyStrip_cons_space h]

theorem lineDecode_append_space (dec : PyStr → Option α) (h : isPySpace a = true) (l : PyStr) :
    lineDecode dec (l ++ [a]) = lineDecode dec l := by
  unfold lineDecode
  rw [pyStrip_append_space h]

theorem pySplit_ne_nil (c : Char) : ∀ s : PyStr, pySplit c s ≠ [] := by
  intro s
  induction s with
  | nil => simp [pySplit]
  | cons x xs ih =>
    unfold pySplit
    match h : pySplit c xs with
    | [] => simp
    | h1 :: t => by_cases hx : x = c <;> simp [hx]

/-- Extends the last piece of a piece list by one character (the effect of
    appending a non-separator character to the split input). -/
def extLast (a : Char) : List PyStr → List PyStr
  | [] => [[a]]
  | [h] => [h ++ [a]]
  | h :: t => h :: extLast a t

theorem pySplit_concat (c a : Char) :
    ∀ q : PyStr, pySplit c (q ++ [a]) =
      if a = c then pySplit c q ++ [[]] else extLast a (pySplit c q) := by
  intro q
  induction q with
  | nil =>
    by_cases ha : a = c <;> simp [pySplit, extLast, ha]
  | cons x xs ih =>
    rw [show (x :: xs) ++ [a] = x :: (xs ++ [a]) from rfl]
    unfold pySplit
    rw [ih]
    match hs : pySplit c xs with
    | [] => exact absurd hs (pySplit_ne_nil c xs)
    | h1 :: t =>
      by_cases ha : a = c
      · by_cases hx : x = c <;> simp [ha, hx]
      · by_cases hx : x = c
        · cases t <;> simp [ha, hx, extLast]
        · cases t <;> simp [ha, hx, extLast]

theorem filterMap_extLast (f : PyStr → Option α) (a : Char)
    (hf : ∀ x, f (x ++ [a]) = f x) :
    ∀ l : List PyStr, l ≠ [] → (extLast a l).filterMap f = l.filterMap f := by
  intro l
  induction l with
  | nil => intro h; exact absurd rfl h
  | cons h1 t ih =>
    intro _
    cases t with
    | nil => simp [extLast, List.filterMap_cons, hf]
    | cons h2 t2 =>
      rw [show extLast a (h1 :: h2 :: t2) = h1 :: extLast a (h2 :: t2) from rfl]
      rw [List.filterMap_cons, List.filterMap_cons, ih (by simp)]

theorem pySplit_cons_sep (c : Char) (xs : PyStr) :
    pySplit c (c :: xs) = [] :: pySplit c xs := by
  rcases hs : pySplit c xs with _ | ⟨h1, t⟩
  · exact absurd hs (pySplit_ne_nil c xs)
  · conv_lhs => rw [pySplit]
    rw [hs]
    simp

theorem pySplit_cons_nosep {c x : Char} (hx : x ≠ c) {xs : PyStr} {h1 : PyStr}
    {t : List PyStr} (hs : pySplit c xs = h1 :: t) :
    pySplit c (x :: xs) = (x :: h1) :: t := by
  conv_lhs => rw [pySplit]
  rw [hs]
  simp [hx]

theorem filterMap_pySplit_stripLeft (dec : PyStr → Option α) :
    ∀ p : PyStr, (pySplit '\n' (stripLeft p)).filterMap (lineDecode dec) =
      (pySplit '\n' p).filterMap (lineDecode dec) := by
  intro p
  induction p with
  | nil => rfl
  | cons x xs ih =>
    by_cases hx : isPySpace x = true
    · rw [stripLeft_cons_space hx, ih]
      by_cases hnl : x = '\n'
      · subst hnl
        rw [pySplit_cons_sep, List.filterMap_cons, lineDecode_nil]
      · rcases hs : pySplit '\n' xs with _ | ⟨h1, t⟩
        · exact absurd hs (pySplit_ne_nil _ xs)
        · rw [pySplit_cons_nosep hnl hs, List.filterMap_cons, List.filterMap_cons,
            lineDecode_cons_space dec hx]
    · have hx' : isPySpace x = false := by
        cases hxx : isPySpace x
        · rfl
        · exact absurd hxx hx
      rw [show stripLeft (x :: xs) = x :: xs by
        simp [stripLeft, List.dropWhile_cons, hx']]

theorem filterMap_pySplit_stripRight (dec : PyStr → Option α) :
    ∀ p : PyStr, (pySplit '\n' (stripRight p)).filterMap (lineDecode dec) =
      (pySplit '\n' p).filterMap (lineDecode dec) := by
  intro p
  induction p using List.reverseRecOn with
  | nil => rfl
  | append_singleton q a ih =>
    by_cases ha : isPySpace a = true
    · rw [stripRight_append_space ha, ih, pySplit_concat]
      by_cases hnl : a = '\n'
      · rw [if_pos hnl, List.filterMap_append]
        simp [List.filterMap_cons, lineDecode_nil]
      · rw [if_neg hnl,
          filterMap_extLast (lineDecode dec) a (fun x => lineDecode_append_space dec ha x)
            (pySplit '\n' q) (pySplit_ne_nil _ q)]
    · have ha' : isPySpace a = false := by
        cases haa : isPySpace a
        · rfl
        · exact absurd haa ha
      rw [stripRight_append_nospace ha']

theorem pyStrip_eq_nil_all_space {p : PyStr} (h : pyStrip p = []) :
    ∀ x ∈ p, isPySpace x = true := by
  unfold pyStrip stripRight at h
  have h2 : (stripLeft p).reverse.dropWhile isPySpace = [] := by
    cases hq : (stripLeft p).reverse.dropWhile isPySpace with
    | nil => rfl
    | cons y ys => rw [hq] at h; simp at h
  have h3 : ∀ x ∈ (stripLeft p).reverse, isPySpace x = true :=
    fun x hx => by
      have := List.dropWhile_eq_nil_iff.mp h2
      simpa using this x hx
  have h4 : ∀ x ∈ stripLeft p, isPySpace x = true := by
    intro x hx
    exact h3 x (List.mem_reverse.mpr hx)
  intro x hx
  rcases List.mem_append.mp
    (by rw [List.takeWhile_append_dropWhile (p := isPySpace) (l := p)]; exact hx) with h5 | h5
  · simpa using List.mem_takeWhile_imp h5
  · exact h4 x h5

theorem filterMap_pySplit_all_space (dec : PyStr → Option α) :
    ∀ p : PyStr, (∀ x ∈ p, isPySpace x = true) →
      (pySplit '\n' p).filterMap (lineDecode dec) = [] := by
  intro p
  induction p with
  | nil => simp [pySplit, List.filterMap_cons, lineDecode_nil]
  | cons x xs ih =>
    intro h
    have hx : isPySpace x = true := h x (by simp)
    have hxs : ∀ y ∈ xs, isPySpace y = true := fun y hy => h y (by simp [hy])
    by_cases hnl : x = '\n'
    · subst hnl
      rw [pySplit_cons_sep, List.filterMap_cons, lineDecode_nil, ih hxs]
    · rcases hs : pySplit '\n' xs with _ | ⟨h1, t⟩
      · exact absurd hs (pySplit_ne_nil _ xs)
      · have hih := ih hxs
        rw [hs] at hih
        rw [pySplit_cons_nosep hnl hs, List.filterMap_cons, lineDecode_cons_space dec hx]
        rw [List.filterMap_cons] at hih
        exact hih

/-- The stream record parser is the blank-and-malformed-skipping filter over
    the newline split of the raw payload: the payload-level strip performed
    first by the source changes no parse result. -/
theorem parseStream_eq (dec : PyStr → Option α) (p : PyStr) :
    parseStream dec p = (pySplit '\n' p).filterMap (lineDecode dec) := by
  unfold parseStream
  by_cases h : pyStrip p = []
  · rw [h]
    simp only [if_pos rfl]
    exact (filterMap_pySplit_all_space dec p (pyStrip_eq_nil_all_space h)).symm
  · rw [if_neg h]
    unfold pyStrip
    rw [filterMap_pySplit_stripRight, filterMap_pySplit_stripLeft]

theorem pySplit_no_sep (c : Char) :
    ∀ l : PyStr, c ∉ l → pySplit c l = [l] := by
  intro l
  induction l with
  | nil => intro _; rfl
  | cons x xs ih =>
    intro h
    have hx : x ≠ c := fun hc => h (by simp [hc])
    have hxs : c ∉ xs := fun hc => h (by simp [hc])
    rw [pySplit_cons_nosep hx (ih hxs)]

theorem pySplit_append_sep (c : Char) :
    ∀ l r : PyStr, c ∉ l → pySplit c (l ++ c :: r) = l :: pySplit c r := by
  intro l r
  induction l with
  | nil =>
    intro _
    simpa using pySplit_cons_sep c r
  | cons x xs ih =>
    intro h
    have hx : x ≠ c := fun hc => h (by simp [hc])
    have hxs : c ∉ xs := fun hc => h (by simp [hc])
    rcases hs : pySplit c (xs ++ c :: r) with _ | ⟨h1, t⟩
    · exact absurd hs (pySplit_ne_nil c _)
    · have := ih hxs
      rw [hs] at this
      cases this
      exact pySplit_cons_nosep hx hs

theorem pySplit_joinLines :
    ∀ ls : List PyStr, ls ≠ [] → (∀ l ∈ ls, ('\n') ∉ l) →
      pySplit '\n' (joinLines ls) = ls := by
  intro ls
  induction ls with
  | nil => intro h; exact absurd rfl h
  | cons l rest ih =>
    intro _ h
    cases rest with
    | nil => exact pySplit_no_sep '\n' l (h l (by simp))
    | cons l2 rest2 =>
      rw [show joinLines (l :: l2 :: rest2) = l ++ '\n' :: joinLines (l2 :: rest2) from rfl]
      rw [pySplit_append_sep '\n' l (joinLines (l2 :: rest2)) (h l (by simp))]
      rw [ih (by simp) (fun x hx => h x (by simp [hx]))]

theorem length_filterMap_eq_countP (f : PyStr → Option α) :
    ∀ l : List PyStr, (l.filterMap f).length = l.countP (fun x => (f x).isSome) := by
  intro l
  induction l with
  | nil => rfl
  | cons x xs ih =>
    rw [List.filterMap_cons, List.countP_cons]
    cases hfx : f x <;> simp [hfx, ih]

theorem pyReadlines_append_sep :
    ∀ a b : PyStr, ('\n') ∉ a →
      pyReadlines (a ++ '\n' :: b) = (a ++ ['\n']) :: pyReadlines b := by
  intro a b
  induction a with
  | nil =>
    intro _
    simp [pyReadlines]
  | cons x xs ih =>
    intro h
    have hx : x ≠ '\n' := fun hc => h (by simp [hc])
    have hxs : ('\n') ∉ xs := fun hc => h (by simp [hc])
    rw [show (x :: xs) ++ '\n' :: b = x :: (xs ++ '\n' :: b) from rfl]
    conv_lhs => rw [pyReadlines]
    rw [ih hxs]
    simp [hx]

theorem pyReadlines_no_sep :
    ∀ a : PyStr, a ≠ [] → ('\n') ∉ a → pyReadlines a = [a] := by
  intro a
  induction a with
  | nil => intro h; exact absurd rfl h
  | cons x xs ih =>
    intro _ h
    have hx : x ≠ '\n' := fun hc => h (by simp [hc])
    have hxs : ('\n') ∉ xs := fun hc => h (by simp [hc])
    conv_lhs => rw [pyReadlines]
    cases xs with
    | nil => simp [hx, pyReadlines]
    | cons y ys => rw [ih (by simp) hxs]; simp [hx]

theorem finalStateOf_eq_getLast (emptyR : α) :
    ∀ records : List α, finalStateOf emptyR records = records.getLast?.getD emptyR := by
  intro records
  induction records with
  | nil => rfl
  | cons x xs ih =>
    cases xs with
    | nil => rfl
    | cons y ys =>
      have h1 : finalStateOf emptyR (x :: y :: ys) =
          (y :: ys).getD ((y :: ys).length - 1) emptyR := by
        show (x :: y :: ys).getD ((x :: y :: ys).length - 1) emptyR = _
        rw [show (x :: y :: ys).length - 1 = ((y :: ys).length - 1) + 1 by
          simp [List.length_cons]]
        rw [List.getD_cons_succ]
      have h2 : finalStateOf emptyR (y :: ys) =
          (y :: ys).getD ((y :: ys).length - 1) emptyR := rfl
      rw [h1, ← h2, ih, List.getLast?_cons_cons]

/-- C2: for every payload consisting of valid JSON lines interleaved with
    malformed lines, the stream record parser yields exactly the records of
    the valid lines (the filterMap of the per-line decode) in original
    relative order; the malformed lines produce no output record and no
    error (the parser is a total function), and the empty payload parses to
    the empty sequence rather than an error. -/
theorem claim2_parse_interleaved_lines (α : Type) (dec : PyStr → Option α)
    (ls : List PyStr) (h : ∀ l ∈ ls, ('\n') ∉ l) :
    parseStream dec (joinLines ls) = ls.filterMap (lineDecode dec) ∧
    (parseStream dec (joinLines ls)).length =
      ls.countP (fun l => (lineDecode dec l).isSome) ∧
    parseStream dec ([] : PyStr) = [] := by
  have hmain : parseStream dec (joinLines ls) = ls.filterMap (lineDecode dec) := by
    cases ls with
    | nil => rfl
    | cons l rest =>
      rw [parseStream_eq, pySplit_joinLines (l :: rest) (by simp) h]
  exact ⟨hmain, by rw [hmain, length_filterMap_eq_countP], rfl⟩

theorem claim2_parse_interleaved_lines_witness :
    (∀ l ∈ [chars "\x7b\"a\":1\x7d", chars "oops", chars " ", chars "\x7b\"b\":2\x7d"],
      ('\n') ∉ l) ∧
    parseStream decFlatObj
        (joinLines [chars "\x7b\"a\":1\x7d", chars "oops", chars " ", chars "\x7b\"b\":2\x7d"]) =
      [[(chars "a", 1)], [(chars "b", 2)]] := by
  have h : ∀ l ∈ [chars "\x7b\"a\":1\x7d", chars "oops", chars " ", chars "\x7b\"b\":2\x7d"],
      ('\n') ∉ l := by decide
  refine ⟨h, ?_⟩
  rw [(claim2_parse_interleaved_lines FlatRec decFlatObj _ h).1]
  decide

/-- C3: the aggregated snapshot's final state is the last record in arrival
    order, or the empty structure when the record sequence is empty (no
    error is raised); on the spec's scenario payload
    {"bid":100,"ask":101}\n{"bid":100,"ask":102} the run succeeds with
    final snapshot {"bid":100,"ask":102} and total_records 2, and
    aggregating the parse of the empty payload yields the empty snapshot. -/
theorem claim3_aggregate_snapshot :
    (∀ (α : Type) (emptyR : α) (records : List α),
        finalStateOf emptyR records = records.getLast?.getD emptyR) ∧
    ((startStreaming decFlatObj ([] : FlatRec) encFlatObj fsInput scenarioEnv).2.2 =
      .ok { status := chars "success"
            message := chars "Microservices completed successfully"
            total_records := 2
            final_order_book := [(chars "bid", 100), (chars "ask", 102)]
            sender_stats := chars "sender-activation"
            receiver_stats := chars "receiver-stats"
            data := [[(chars "bid", 100), (chars "ask", 101)],
                     [(chars "bid", 100), (chars "ask", 102)]] }) ∧
    parseStream decFlatObj (chars "") = [] ∧
    finalStateOf ([] : FlatRec) (parseStream decFlatObj (chars "")) = [] := by
  refine ⟨fun α emptyR records => finalStateOf_eq_getLast emptyR records, ?_, rfl, rfl⟩
  decide

/-- C8: reading results when the persisted output artifact does not exist
    fails with HTTP 404 "No order book data available" — artifact absence is
    reported as the no-data-yet condition, not as corruption (this 404 is
    raised before get_order_book's try block, so it is surfaced as-is). -/
theorem claim8_read_before_any_run (α : Type) (dec : PyStr → Option α) (fs : Fs)
    (h : fs.outputFile = none) :
    readOrderBook dec fs = .error ⟨404, chars "No order book data available"⟩ := by
  unfold readOrderBook
  rw [h]

theorem claim8_read_before_any_run_witness :
    fsInput.outputFile = none ∧
    readOrderBook decFlatObj fsInput = .error ⟨404, chars "No order book data available"⟩ :=
  ⟨rfl, claim8_read_before_any_run FlatRec decFlatObj fsInput rfl⟩

/- Characterization of start_streaming on each class of environment.  These
   lemmas compute the handler's full observable outcome — final filesystem,
   effect trace, and HTTP result — for the input-missing case and for every
   outcome of the three mandatory outbound calls. -/

theorem startStreaming_no_datafile (dec : PyStr → Option α) (emptyR : α) (enc : α → PyStr)
    (fs : Fs) (env : Env β) (hdf : fs.dataFile = false) :
    startStreaming dec emptyR enc fs env =
      (fs, [], .error ⟨500, chars "Error: 404: Data file not found"⟩) := by
  have hw : wrapExc (.httpExc 404 (chars "Data file not found")) =
      ⟨500, chars "Error: 404: Data file not found"⟩ := by decide
  unfold startStreaming startCore
  rw [hdf]
  simp [hw]

theorem startStreaming_sender_raise (dec : PyStr → Option α) (emptyR : α) (enc : α → PyStr)
    (fs : Fs) (env : Env β) (e : PyStr) (hdf : fs.dataFile = true)
    (hs : env.senderResp = .error e) :
    startStreaming dec emptyR enc fs env =
      ({ fs with outputFile := none }, cleanupTrace fs ++ [Eff.callSender],
        .error ⟨500, chars "Microservice communication failed: " ++ e⟩) := by
  unfold startStreaming startCore
  rw [hdf, hs]
  simp [wrapExc]
theorem startStreaming_sender_badcode (dec : PyStr → Option α) (emptyR : α) (enc : α → PyStr)
    (fs : Fs) (env : Env β) (sr : Resp β) (hdf : fs.dataFile = true)
    (hs : env.senderResp = .ok sr) (hc : sr.code ≠ 200) :
    startStreaming dec emptyR enc fs env =
      ({ fs with outputFile := none }, cleanupTrace fs ++ [Eff.callSender],
        .error (wrapExc (.httpExc 500 (chars "Sender microservice failed: " ++ sr.text)))) := by
  unfold startStreaming startCore
  rw [hdf]
  simp [hs, hc]

theorem startStreaming_sender_badjson (dec : PyStr → Option α) (emptyR : α) (enc : α → PyStr)
    (fs : Fs) (env : Env β) (sr : Resp β) (hdf : fs.dataFile = true)
    (hs : env.senderResp = .ok sr) (hc : sr.code = 200) (hj : sr.json = none) :
    startStreaming dec emptyR enc fs env =
      ({ fs with outputFile := none }, cleanupTrace fs ++ [Eff.callSender],
        .error (wrapExc (.reqExc jsonErrText))) := by
  unfold startStreaming startCore
  rw [hdf]
  simp [hs, hj, hc]

theorem startStreaming_receiver_raise (dec : PyStr → Option α) (emptyR : α) (enc : α → PyStr)
    (fs : Fs) (env : Env β) (sr : Resp β) (sd : β) (e : PyStr) (hdf : fs.dataFile = true)
    (hs : env.senderResp = .ok sr) (hc : sr.code = 200) (hj : sr.json = some sd)
    (hr : env.receiverResp = .error e) :
    startStreaming dec emptyR enc fs env =
      ({ fs with outputFile := none },
        cleanupTrace fs ++ [Eff.callSender, Eff.callReceiver],
        .error (wrapExc (.httpExc 500 (chars "Receiver microservice failed: " ++ e)))) := by
  unfold startStreaming startCore
  rw [hdf]
  simp [hs, hj, hr, hc]

theorem startStreaming_receiver_badcode (dec : PyStr → Option α) (emptyR : α) (enc : α → PyStr)
    (fs : Fs) (env : Env β) (sr rr : Resp β) (sd : β) (hdf : fs.dataFile = true)
    (hs : env.senderResp = .ok sr) (hc : sr.code = 200) (hj : sr.json = some sd)
    (hr : env.receiverResp = .ok rr) (hrc : rr.code ≠ 200) :
    startStreaming dec emptyR enc fs env =
      ({ fs with outputFile := none },
        cleanupTrace fs ++ [Eff.callSender, Eff.callReceiver],
        .error (wrapExc (.httpExc 500 (chars "Receiver microservice failed: " ++ rr.text)))) := by
  unfold startStreaming startCore
  rw [hdf]
  simp [hs, hj, hr, hc, hrc]

theorem startStreaming_receiver_badjson (dec : PyStr → Option α) (emptyR : α) (enc : α → PyStr)
    (fs : Fs) (env : Env β) (sr rr : Resp β) (sd : β) (hdf : fs.dataFile = true)
    (hs : env.senderResp = .ok sr) (hc : sr.code = 200) (hj : sr.json = some sd)
    (hr : env.receiverResp = .ok rr) (hrc : rr.code = 200) (hrj : rr.json = none) :
    startStreaming dec emptyR enc fs env =
      ({ fs with outputFile := none },
        cleanupTrace fs ++ [Eff.callSender, Eff.callReceiver],
        .error (wrapExc (.reqExc jsonErrText))) := by
  unfold startStreaming startCore
  rw [hdf]
  simp [hs, hj, hr, hrj, hc, hrc]

theorem startStreaming_orderbook_raise (dec : PyStr → Option α) (emptyR : α) (enc : α → PyStr)
    (fs : Fs) (env : Env β) (sr rr : Resp β) (sd rd : β) (e : PyStr) (hdf : fs.dataFile = true)
    (hs : env.senderResp = .ok sr) (hc : sr.code = 200) (hj : sr.json = some sd)
    (hr : env.receiverResp = .ok rr) (hrc : rr.code = 200) (hrj : rr.json = some rd)
    (ho : env.orderBookResp = .error e) :
    startStreaming dec emptyR enc fs env =
      ({ fs with outputFile := none },
        cleanupTrace fs ++ [Eff.callSender, Eff.callReceiver, Eff.callStats, Eff.callOrderBook],
        .error (wrapExc (.httpExc 500 (chars "Failed to get order book: " ++ e)))) := by
  unfold startStreaming startCore
  rw [hdf]
  simp [hs, hj, hr, hrj, ho, hc, hrc]

theorem startStreaming_orderbook_badcode (dec : PyStr → Option α) (emptyR : α) (enc : α → PyStr)
    (fs : Fs) (env : Env β) (sr rr ob : Resp β) (sd rd : β) (hdf : fs.dataFile = true)
    (hs : env.senderResp = .ok sr) (hc : sr.code = 200) (hj : sr.json = some sd)
    (hr : env.receiverResp = .ok rr) (hrc : rr.code = 200) (hrj : rr.json = some rd)
    (ho : env.orderBookResp = .ok ob) (hoc : ob.code ≠ 200) :
    startStreaming dec emptyR enc fs env =
      ({ fs with outputFile := none },
        cleanupTrace fs ++ [Eff.callSender, Eff.callReceiver, Eff.callStats, Eff.callOrderBook],
        .error (wrapExc (.httpExc 500 (chars "Failed to get order book: " ++ ob.text)))) := by
  unfold startStreaming startCore
  rw [hdf]
  simp [hs, hj, hr, hrj, ho, hc, hrc, hoc]

theorem startStreaming_success (dec : PyStr → Option α) (emptyR : α) (enc : α → PyStr)
    (fs : Fs) (env : Env β) (sr rr ob : Resp β) (sd rd : β) (hdf : fs.dataFile = true)
    (hs : env.senderResp = .ok sr) (hc : sr.code = 200) (hj : sr.json = some sd)
    (hr : env.receiverResp = .ok rr) (hrc : rr.code = 200) (hrj : rr.json = some rd)
    (ho : env.orderBookResp = .ok ob) (hoc : ob.code = 200) :
    startStreaming dec emptyR enc fs env =
      ({ fs with outputFile := some (persistRecords enc (parseStream dec ob.text)) },
        cleanupTrace fs ++ [Eff.callSender, Eff.callReceiver, Eff.callStats, Eff.callOrderBook],
        .ok { status := chars "success"
              message := chars "Microservices completed successfully"
              total_records := (parseStream dec ob.text).length
              final_order_book := finalStateOf emptyR (parseStream dec ob.text)
              sender_stats := sd
              receiver_stats := statsFallback env.statsResp rd
              data := parseStream dec ob.text }) := by
  unfold startStreaming startCore
  rw [hdf]
  simp [hs, hj, hr, hrj, ho, hc, hrc, hoc]

/- Small helpers shared by the remaining claims. -/

theorem readOrderBook_absent (dec : PyStr → Option α) (fs : Fs)
    (h : fs.outputFile = none) :
    readOrderBook dec fs = .error ⟨404, chars "No order book data available"⟩ := by
  unfold readOrderBook
  rw [h]

theorem head_cleanup (fs : Fs) (hsome : fs.outputFile.isSome = true) (l : List Eff) :
    (cleanupTrace fs ++ l).head? = some Eff.deleteOutput := by
  unfold cleanupTrace
  rw [hsome]
  rfl

theorem mem_cleanup_sender {x : Eff} (fs : Fs) (h1 : x ≠ Eff.deleteOutput)
    (h2 : x ≠ Eff.callSender) : x ∉ cleanupTrace fs ++ [Eff.callSender] := by
  unfold cleanupTrace
  cases h : fs.outputFile.isSome <;> simp [h1, h2]

/-- C4 (code-bug evidence): when the input data artifact is absent,
    start_streaming stops before performing any other action — the effect
    trace is empty (no external service contacted, no artifact deleted) and
    the filesystem, including any previously persisted output artifact, is
    returned unchanged — but the failure is surfaced as HTTP 500 with detail
    "Error: 404: Data file not found", not as HTTP 404: the
    HTTPException(404, "Data file not found") raised at main.py line 43 is
    itself an Exception, so the blanket `except Exception` at line 150
    catches it and re-raises it as HTTP 500 with str(e) embedded. -/
theorem claim4_input_missing_eval (α β : Type) (dec : PyStr → Option α) (emptyR : α)
    (enc : α → PyStr) (fs : Fs) (env : Env β) (hdf : fs.dataFile = false) :
    startStreaming dec emptyR enc fs env =
      (fs, [], .error ⟨500, chars "Error: 404: Data file not found"⟩) ∧
    (500 : Nat) ≠ 404 :=
  ⟨startStreaming_no_datafile dec emptyR enc fs env hdf, by decide⟩

theorem claim4_input_missing_eval_witness :
    fsNoData.dataFile = false ∧
    startStreaming decFlatObj ([] : FlatRec) encFlatObj fsNoData scenarioEnv =
      (fsNoData, [], .error ⟨500, chars "Error: 404: Data file not found"⟩) :=
  ⟨rfl,
    (claim4_input_missing_eval FlatRec PyStr decFlatObj [] encFlatObj fsNoData scenarioEnv rfl).1⟩

/-- C5: when the producer activation call fails — non-success response or
    raised client error — the run is aborted: the consumer is never
    activated (neither it, the statistics endpoint, nor the order-book
    endpoint appears in the trace) and the endpoint responds HTTP 500.  On a
    non-success response the message embeds the code's rendering of the
    producer-activation failure, "Sender microservice failed: " followed by
    the upstream body (wrapped into "Error: 500: ..." by the blanket except
    clause); on a client failure it is "Microservice communication failed: "
    followed by the exception text. -/
theorem claim5_producer_failure_aborts (α β : Type) (dec : PyStr → Option α) (emptyR : α)
    (enc : α → PyStr) (fs : Fs) (env : Env β) (hdf : fs.dataFile = true) :
    (∀ sr : Resp β, env.senderResp = .ok sr → sr.code ≠ 200 →
      ∃ err : HErr, (startStreaming dec emptyR enc fs env).2.2 = .error err ∧
        err.code = 500 ∧
        (∃ pre, err.detail = pre ++ (chars "Sender microservice failed: " ++ sr.text)) ∧
        Eff.callReceiver ∉ (startStreaming dec emptyR enc fs env).2.1 ∧
        Eff.callStats ∉ (startStreaming dec emptyR enc fs env).2.1 ∧
        Eff.callOrderBook ∉ (startStreaming dec emptyR enc fs env).2.1) ∧
    (∀ e : PyStr, env.senderResp = .error e →
      ∃ err : HErr, (startStreaming dec emptyR enc fs env).2.2 = .error err ∧
        err.code = 500 ∧
        err.detail = chars "Microservice communication failed: " ++ e ∧
        Eff.callReceiver ∉ (startStreaming dec emptyR enc fs env).2.1) := by
  constructor
  · intro sr hs hc
    have hrun := startStreaming_sender_badcode dec emptyR enc fs env sr hdf hs hc
    rw [hrun]
    exact ⟨_, rfl, rfl, ⟨_, rfl⟩,
      mem_cleanup_sender fs (by decide) (by decide),
      mem_cleanup_sender fs (by decide) (by decide),
      mem_cleanup_sender fs (by decide) (by decide)⟩
  · intro e hs
    have hrun := startStreaming_sender_raise dec emptyR enc fs env e hdf hs
    rw [hrun]
    exact ⟨_, rfl, rfl, rfl, mem_cleanup_sender fs (by decide) (by decide)⟩

theorem claim5_producer_failure_aborts_witness :
    fsInput.dataFile = true ∧ (503 : Nat) ≠ 200 ∧
    (∃ err : HErr,
      (startStreaming decFlatObj ([] : FlatRec) encFlatObj fsInput env503).2.2 = .error err ∧
      err.code = 500 ∧
      (∃ pre, err.detail =
        pre ++ (chars "Sender microservice failed: " ++ chars "Service Unavailable")) ∧
      Eff.callReceiver ∉ (startStreaming decFlatObj ([] : FlatRec) encFlatObj fsInput env503).2.1) := by
  refine ⟨rfl, by decide, ?_⟩
  obtain ⟨err, h1, h2, h3, h4, _, _⟩ :=
    (claim5_producer_failure_aborts FlatRec PyStr decFlatObj [] encFlatObj fsInput env503 rfl).1
      ⟨503, chars "Service Unavailable", none⟩ rfl (by decide)
  exact ⟨err, h1, h2, h3, h4⟩

/-- C6 (counterexample): a liveness probe answered with a non-success
    response (here HTTP 503) is NOT normalized to not_running: the handler
    only overwrites the initial "unknown" on a 200 response, and only a
    raised exception reaches the clause that writes "not_running", so the
    reported status stays "unknown". -/
theorem claim6_nonsuccess_probe_counterexample :
    (getMicroservicesStatus fsInput probeEnvMixed).senderStatus = chars "unknown" ∧
    chars "unknown" ≠ chars "not_running" := ⟨rfl, by decide⟩

/-- C6 (amended): a probe that raises — unreachable or timeout — is
    normalized to not_running and a 200 response reports ready, but a
    non-success response leaves the initial status "unknown"; probing never
    throws (the handler is a total function on every probe outcome) and when
    both dependent services are unreachable both are reported not_running
    while the endpoint itself still returns its report normally (HTTP 200,
    with the local python server reported ready). -/
theorem claim6_probe_failure_normalization (fs : Fs) (env : ProbeEnv) :
    (∀ e, env.senderProbe = .error e →
      (getMicroservicesStatus fs env).senderStatus = chars "not_running") ∧
    (∀ b, env.senderProbe = .ok (200, b) →
      (getMicroservicesStatus fs env).senderStatus = chars "ready") ∧
    (∀ c b, env.senderProbe = .ok (c, b) → c ≠ 200 →
      (getMicroservicesStatus fs env).senderStatus = chars "unknown") ∧
    (∀ e, env.receiverProbe = .error e →
      (getMicroservicesStatus fs env).receiverStatus = chars "not_running") ∧
    (∀ b, env.receiverProbe = .ok (200, b) →
      (getMicroservicesStatus fs env).receiverStatus = chars "ready") ∧
    (∀ c b, env.receiverProbe = .ok (c, b) → c ≠ 200 →
      (getMicroservicesStatus fs env).receiverStatus = chars "unknown") ∧
    (getMicroservicesStatus fs env).pythonStatus = chars "ready" := by
  rcases env with ⟨sp, rp⟩
  refine ⟨?_, ?_, ?_, ?_, ?_, ?_, rfl⟩
  · intro e h
    subst h
    rfl
  · intro b h
    subst h
    rfl
  · intro c b h hc
    subst h
    simp [getMicroservicesStatus, hc]
  · intro e h
    subst h
    rfl
  · intro b h
    subst h
    rfl
  · intro c b h hc
    subst h
    simp [getMicroservicesStatus, hc]

theorem claim6_probe_failure_normalization_witness :
    (getMicroservicesStatus fsInput probeEnvDown).senderStatus = chars "not_running" ∧
    (getMicroservicesStatus fsInput probeEnvDown).receiverStatus = chars "not_running" ∧
    (getMicroservicesStatus fsInput probeEnvDown).pythonStatus = chars "ready" := by
  have h := claim6_probe_failure_normalization fsInput probeEnvDown
  exact ⟨h.1 _ rfl, h.2.2.2.1 _ rfl, h.2.2.2.2.2.2⟩

theorem filterMap_pyReadlines_joinLines (dec : PyStr → Option α) (enc : α → PyStr) :
    ∀ records : List α,
      (∀ r ∈ records, ('\n') ∉ enc r ∧ pyStrip (enc r) = enc r ∧ enc r ≠ [] ∧
        dec (enc r) = some r) →
      (pyReadlines (joinLines (records.map enc))).filterMap (lineDecode dec) = records := by
  intro records
  induction records with
  | nil => intro _; rfl
  | cons r rest ih =>
    intro h
    obtain ⟨hnl, hst, hne, hdec⟩ := h r (by simp)
    have hld : lineDecode dec (enc r) = some r := by
      show (if pyStrip (enc r) = [] then none else dec (pyStrip (enc r))) = some r
      rw [hst, if_neg hne, hdec]
    cases rest with
    | nil =>
      rw [show joinLines ([r].map enc) = enc r from rfl]
      rw [pyReadlines_no_sep (enc r) hne hnl]
      simp [List.filterMap_cons, hld]
    | cons r2 rest2 =>
      rw [show joinLines ((r :: r2 :: rest2).map enc) =
          enc r ++ '\n' :: joinLines ((r2 :: rest2).map enc) from rfl]
      rw [pyReadlines_append_sep (enc r) _ hnl]
      have hld2 : lineDecode dec (enc r ++ ['\n']) = some r := by
        rw [lineDecode_append_space dec (by decide) (enc r), hld]
      rw [List.filterMap_cons, hld2, ih (fun x hx => h x (by simp [hx]))]

/-- C7: round-trip — persisting a record sequence to the output artifact in
    the same line-delimited encoding (one encoded record per line; the
    durable write itself is modelled from the spec, since it is performed by
    the consumer service through shared storage, not by code under src/) and
    reading it back through GET /api/order-book yields exactly the original
    records in content and order, independent of any in-memory run state.
    The hypotheses say the encoding is one decodable non-blank line per
    record, as the spec's "round-trip preserving" encoding requires. -/
theorem claim7_persist_read_roundtrip (α : Type) (dec : PyStr → Option α)
    (enc : α → PyStr) (records : List α) (fs : Fs)
    (h : ∀ r ∈ records, ('\n') ∉ enc r ∧ pyStrip (enc r) = enc r ∧ enc r ≠ [] ∧
      dec (enc r) = some r) :
    readOrderBook dec { fs with outputFile := some (persistRecords enc records) } =
      .ok ⟨chars "success", records.length, records⟩ := by
  have hrec : (pyReadlines (persistRecords enc records)).filterMap (lineDecode dec) = records := by
    unfold persistRecords
    exact filterMap_pyReadlines_joinLines dec enc records h
  rcases fs with ⟨df, of⟩
  simp [readOrderBook, hrec]

theorem claim7_persist_read_roundtrip_witness :
    (∀ r ∈ [[(chars "bid", 100), (chars "ask", 101)], [(chars "bid", 100), (chars "ask", 102)]],
      ('\n') ∉ encFlatObj r ∧ pyStrip (encFlatObj r) = encFlatObj r ∧ encFlatObj r ≠ [] ∧
        decFlatObj (encFlatObj r) = some r) ∧
    readOrderBook decFlatObj
        { fsInput with outputFile := some (persistRecords encFlatObj
            [[(chars "bid", 100), (chars "ask", 101)], [(chars "bid", 100), (chars "ask", 102)]]) } =
      .ok ⟨chars "success", 2,
        [[(chars "bid", 100), (chars "ask", 101)], [(chars "bid", 100), (chars "ask", 102)]]⟩ := by
  have h : ∀ r ∈ [[(chars "bid", 100), (chars "ask", 101)],
      [(chars "bid", 100), (chars "ask", 102)]],
      ('\n') ∉ encFlatObj r ∧ pyStrip (encFlatObj r) = encFlatObj r ∧ encFlatObj r ≠ [] ∧
        decFlatObj (encFlatObj r) = some r := by decide
  exact ⟨h, claim7_persist_read_roundtrip FlatRec decFlatObj encFlatObj _ fsInput h⟩

/-- C9: the best-effort statistics fetch never fails the run: whenever the
    run reaches the statistics step (producer and consumer both activated
    successfully with decodable activation bodies) and the final output
    fetch succeeds, a statistics request that raises or returns a
    non-success status leaves the run on its success path, and the response
    carries the consumer activation response as the receiver statistics. -/
theorem claim9_stats_best_effort (α β : Type) (dec : PyStr → Option α) (emptyR : α)
    (enc : α → PyStr) (fs : Fs) (env : Env β) (sr rr ob : Resp β) (sd rd : β)
    (hdf : fs.dataFile = true)
    (hs : env.senderResp = .ok sr) (hc : sr.code = 200) (hj : sr.json = some sd)
    (hr : env.receiverResp = .ok rr) (hrc : rr.code = 200) (hrj : rr.json = some rd)
    (ho : env.orderBookResp = .ok ob) (hoc : ob.code = 200)
    (hstats : (∃ e, env.statsResp = .error e) ∨
      (∃ st : Resp β, env.statsResp = .ok st ∧ st.code ≠ 200)) :
    (startStreaming dec emptyR enc fs env).2.2 =
      .ok { status := chars "success"
            message := chars "Microservices completed successfully"
            total_records := (parseStream dec ob.text).length
            final_order_book := finalStateOf emptyR (parseStream dec ob.text)
            sender_stats := sd
            receiver_stats := rd
            data := parseStream dec ob.text } := by
  have hrun := startStreaming_success dec emptyR enc fs env sr rr ob sd rd hdf hs hc hj hr
    hrc hrj ho hoc
  have hsf : statsFallback env.statsResp rd = rd := by
    rcases hstats with ⟨e, he⟩ | ⟨st, hst, hstc⟩
    · rw [he]
      rfl
    · rw [hst]
      unfold statsFallback
      simp [hstc]
  rw [hrun]
  simp [hsf]

theorem claim9_stats_best_effort_witness :
    fsInput.dataFile = true ∧
    envStatsDown.statsResp = .error (chars "timeout") ∧
    (startStreaming decFlatObj ([] : FlatRec) encFlatObj fsInput envStatsDown).2.2 =
      .ok { status := chars "success"
            message := chars "Microservices completed successfully"
            total_records := 2
            final_order_book := [(chars "bid", 100), (chars "ask", 102)]
            sender_stats := chars "sender-activation"
            receiver_stats := chars "receiver-activation"
            data := [[(chars "bid", 100), (chars "ask", 101)],
                     [(chars "bid", 100), (chars "ask", 102)]] } := by
  refine ⟨rfl, rfl, ?_⟩
  have h := claim9_stats_best_effort FlatRec PyStr decFlatObj [] encFlatObj fsInput envStatsDown
    ⟨200, chars "ok", some (chars "sender-activation")⟩
    ⟨200, chars "ok", some (chars "receiver-activation")⟩
    ⟨200, scenarioBody, none⟩
    (chars "sender-activation") (chars "receiver-activation")
    rfl rfl rfl rfl rfl rfl rfl rfl rfl
    (Or.inl ⟨chars "timeout", rfl⟩)
  rw [h]
  decide

/-- C10: whenever the input artifact exists, start_streaming deletes any
    previously persisted output artifact as its very first effect, before
    contacting any external service; consequently every run that ends in an
    error after that point — producer activation, consumer activation, or
    output retrieval, on raised errors, non-success statuses, or undecodable
    activation bodies — leaves the output artifact absent, and
    GET /api/order-book then answers 404 "No order book data available" even
    if an earlier run had succeeded: a failed run is not atomic with respect
    to the previously persisted results. -/
theorem claim10_cleanup_frame (α β : Type) (dec : PyStr → Option α) (emptyR : α)
    (enc : α → PyStr) (fs : Fs) (env : Env β) (hdf : fs.dataFile = true) :
    (fs.outputFile.isSome = true →
      (startStreaming dec emptyR enc fs env).2.1.head? = some Eff.deleteOutput) ∧
    (∀ err : HErr, (startStreaming dec emptyR enc fs env).2.2 = .error err →
      (startStreaming dec emptyR enc fs env).1.outputFile = none ∧
      readOrderBook dec (startStreaming dec emptyR enc fs env).1 =
        .error ⟨404, chars "No order book data available"⟩) := by
  rcases hs : env.senderResp with e | sr
  · have hrun := startStreaming_sender_raise dec emptyR enc fs env e hdf hs
    constructor
    · intro hsome
      rw [hrun]
      exact head_cleanup fs hsome _
    · intro err _
      rw [hrun]
      exact ⟨rfl, readOrderBook_absent dec _ rfl⟩
  · by_cases hc : sr.code = 200
    · rcases hj : sr.json with _ | sd
      · have hrun := startStreaming_sender_badjson dec emptyR enc fs env sr hdf hs hc hj
        constructor
        · intro hsome
          rw [hrun]
          exact head_cleanup fs hsome _
        · intro err _
          rw [hrun]
          exact ⟨rfl, readOrderBook_absent dec _ rfl⟩
      · rcases hr : env.receiverResp with e | rr
        · have hrun := startStreaming_receiver_raise dec emptyR enc fs env sr sd e hdf hs hc hj hr
          constructor
          · intro hsome
            rw [hrun]
            exact head_cleanup fs hsome _
          · intro err _
            rw [hrun]
            exact ⟨rfl, readOrderBook_absent dec _ rfl⟩
        · by_cases hrc : rr.code = 200
          · rcases hrj : rr.json with _ | rd
            · have hrun := startStreaming_receiver_badjson dec emptyR enc fs env sr rr sd hdf
                hs hc hj hr hrc hrj
              constructor
              · intro hsome
                rw [hrun]
                exact head_cleanup fs hsome _
              · intro err _
                rw [hrun]
                exact ⟨rfl, readOrderBook_absent dec _ rfl⟩
            · rcases ho : env.orderBookResp with e | ob
              · have hrun := startStreaming_orderbook_raise dec emptyR enc fs env sr rr sd rd e
                  hdf hs hc hj hr hrc hrj ho
                constructor
                · intro hsome
                  rw [hrun]
                  exact head_cleanup fs hsome _
                · intro err _
                  rw [hrun]
                  exact ⟨rfl, readOrderBook_absent dec _ rfl⟩
              · by_cases hoc : ob.code = 200
                · have hrun := startStreaming_success dec emptyR enc fs env sr rr ob sd rd
                    hdf hs hc hj hr hrc hrj ho hoc
                  constructor
                  · intro hsome
                    rw [hrun]
                    exact head_cleanup fs hsome _
                  · intro err herr
                    rw [hrun] at herr
                    simp at herr
                · have hrun := startStreaming_orderbook_badcode dec emptyR enc fs env sr rr ob
                    sd rd hdf hs hc hj hr hrc hrj ho hoc
                  constructor
                  · intro hsome
                    rw [hrun]
                    exact head_cleanup fs hsome _
                  · intro err _
                    rw [hrun]
                    exact ⟨rfl, readOrderBook_absent dec _ rfl⟩
          · have hrun := startStreaming_receiver_badcode dec emptyR enc fs env sr rr sd hdf
              hs hc hj hr hrc
            constructor
            · intro hsome
              rw [hrun]
              exact head_cleanup fs hsome _
            · intro err _
              rw [hrun]
              exact ⟨rfl, readOrderBook_absent dec _ rfl⟩
    · have hrun := startStreaming_sender_badcode dec emptyR enc fs env sr hdf hs hc
      constructor
      · intro hsome
        rw [hrun]
        exact head_cleanup fs hsome _
      · intro err _
        rw [hrun]
        exact ⟨rfl, readOrderBook_absent dec _ rfl⟩

theorem claim10_cleanup_frame_witness :
    fsStale.dataFile = true ∧ fsStale.outputFile.isSome = true ∧
    (startStreaming decFlatObj ([] : FlatRec) encFlatObj fsStale env503).2.1.head? =
      some Eff.deleteOutput ∧
    (startStreaming decFlatObj ([] : FlatRec) encFlatObj fsStale env503).1.outputFile = none ∧
    readOrderBook decFlatObj (startStreaming decFlatObj ([] : FlatRec) encFlatObj fsStale env503).1 =
      .error ⟨404, chars "No order book data available"⟩ := by
  have h := claim10_cleanup_frame FlatRec PyStr decFlatObj [] encFlatObj fsStale env503 rfl
  have hres : (startStreaming decFlatObj ([] : FlatRec) encFlatObj fsStale env503).2.2 =
      .error ⟨500, chars "Error: 500: Sender microservice failed: Service Unavailable"⟩ := by
    decide
  obtain ⟨h3, h4⟩ := h.2 _ hres
  exact ⟨rfl, rfl, h.1 rfl, h3, h4⟩
